import Mathlib

/-!
Verification of the BioSimSpace alignment and parameterisation modules.

This file gives a shallow embedding of the code in
`src/python/BioSimSpace/Align/_align.py` and
`src/python/BioSimSpace/Parameters/_parameters.py`, and proves the
behavioural properties claimed for them.

External collaborators (the Sire molecular toolkit, RDKit, the glob over
the Open Force Field dataset directory, the AMBER/GROMACS installation
probes) are modelled as parameters: a `Toolkit` record for the alignment
module and a `PEnv` record for the parameterisation module.  The code of
this repository is translated function by function; the external calls
are left opaque.
-/

namespace BioSimSpace

/-! ### String helpers

Embeddings of the concrete Python string operations used by the code:
`s.replace(" ", "")`, `s.upper()`, `s.lower()`, `s.replace("-", "_")`,
`s.replace(".", "_")`, and the `%s` formatting of a list of strings. -/

/-- Python `s.replace(" ", "")`: drop every space character. -/
def stripSpaces (s : String) : String := ⟨s.data.filter (fun c => c ≠ ' ')⟩

/-- Python `s.upper()`. -/
def upperStr (s : String) : String := ⟨s.data.map Char.toUpper⟩

/-- Python `s.lower()`. -/
def lowerStr (s : String) : String := ⟨s.data.map Char.toLower⟩

/-- Python `s.replace(a, b)` for single characters `a`, `b`. -/
def subChar (a b : Char) (s : String) : String :=
  ⟨s.data.map (fun c => if c = a then b else c)⟩

/-- Wrap a string in single quotes, as Python `repr` does for `str`. -/
def quoteStr (s : String) : String := "\x27" ++ s ++ "\x27"

/-- Python `"%s" % list_of_strings`: `['a', 'b']`. -/
def listRepr (l : List String) : String :=
  "[" ++ String.intercalate ", " (l.map quoteStr) ++ "]"

/-! ### Data model of the alignment module (`_align.py`) -/

/-- A 3-D coordinate (the `"coordinates"` property of an atom). -/
abbrev Coord : Type := ℚ × ℚ × ℚ

/-- An atom mapping: the items of a Python dict from `AtomIdx` of molecule0
to `AtomIdx` of molecule1, in insertion order.  `AtomIdx.value()` is an
integer, so keys and values are `Int`. -/
abbrev Mapping : Type := List (Int × Int)

/-- A property map (canonical property name to user alias). -/
abbrev PropMap : Type := List (String × String)

/-- The Sire molecule as seen by this module: an atom count and the
coordinates of each atom (`molecule.atom(idx).property("coordinates")`). -/
structure SireMolecule where
  nAtoms : Nat
  coords : Int → Coord

/-- A BioSimSpace time value (`BioSimSpace.Types.Time`): line 208 of
`_align.py` converts it to a Sire unit by multiplying the magnitude with
the factor of its unit. -/
structure BTime where
  magnitude : ℚ
  unitFactor : ℚ

/-- The Sire time value passed to the substructure search. -/
def BTime.sire (t : BTime) : ℚ := t.magnitude * t.unitFactor

/-- The external routines called by `_align.py`, left opaque:
`findMCSmatches` is Sire's substructure-matching search (its eighth
argument is the match-width parameter: `6` in the strict run, `0` in the
widened run); `align` is Sire's `move().align(...)` least-squares fit,
which can fail (the failure value is the low-level error); `getRMSD` is
`Sire.Maths.getRMSD`; `rdkitPrematch` is the whole RDKit prematch
derivation of lines 226-251 (save to PDB, load, `FindMCS`, substructure
projection), `none` when any step of it raises. -/
structure Toolkit where
  findMCSmatches : SireMolecule → SireMolecule → Mapping → ℚ → Bool →
    PropMap → PropMap → Nat → Bool → List Mapping
  align : SireMolecule → SireMolecule → Option Mapping → Except String SireMolecule
  getRMSD : List Coord → List Coord → ℚ
  rdkitPrematch : SireMolecule → SireMolecule → Option Mapping

/-- The Python exceptions raised by the embedded code. -/
inductive PyError where
  | typeError (msg : String)
  | valueError (msg : String)
  | indexError (msg : String)
  | alignmentError (msg : String)
  | missingSoftwareError (msg : String)
deriving DecidableEq, Repr

/-- A `BioSimSpace.Types.Length` (the scores are multiplied by
`_Units.Length.angstrom` on line 557). -/
structure SLength where
  magnitude : ℚ
deriving DecidableEq, Repr

/-- `q * _Units.Length.angstrom`. -/
def mulAngstrom (q : ℚ) : SLength := ⟨q⟩

/-- The possible return values of `matchAtoms`: Python `None`, a single
dict, a list of dicts, or a pair of a list of dicts and a list of
scores. -/
inductive MatchResult where
  | pyNone
  | single (m : Mapping)
  | many (ms : List Mapping)
  | manyWithScores (ms : List Mapping) (ss : List SLength)
deriving DecidableEq, Repr

/-- Python `repr` of an atom-index pair, used in error messages. -/
def reprIntPair (p : Int × Int) : String :=
  "(" ++ toString p.1 ++ ", " ++ toString p.2 ++ ")"

/-- Representation of a mapping, used in the alignment error messages
(`"... based on mapping: %r" % mapping`). -/
def reprMapping (m : Mapping) : String :=
  "[" ++ String.intercalate ", " (m.map reprIntPair) ++ "]"

/-- Representation of the optional mapping handed to `align` (Python
prints `None` for an absent mapping). -/
def reprOptMapping : Option Mapping → String
  | none => "None"
  | some m => reprMapping m

/-! ### `_score_rmsd` (lines 489-560 of `_align.py`) -/

/-- The message of the `AlignmentError` raised on line 531. -/
def scoreAlignMsg (m : Mapping) : String :=
  "Failed to align molecules when scoring based on mapping: " ++ reprMapping m

/-- The message of the `AlignmentError` raised on line 391. -/
def alignMsg (mo : Option Mapping) : String :=
  "Failed to align molecules based on mapping: " ++ reprOptMapping mo

/-- The scoring loop of `_score_rmsd` (lines 522-548): for each mapping,
optionally re-align `molecule0` onto `molecule1` (the re-assigned molecule
carries over to the following iterations, as in the source), gather the
coordinates of the mapped atom pairs and compute the RMSD.  A failing fit
raises `AlignmentError` with the offending mapping, the low-level cause
being dropped (`from None`). -/
def scoreLoop (tk : Toolkit) (molecule1 : SireMolecule) (is_align : Bool) :
    SireMolecule → List Mapping → Except PyError (List ℚ)
  | _, [] => .ok []
  | molecule0, m :: rest =>
    match (if is_align then tk.align molecule0 molecule1 (some m) else .ok molecule0 :
        Except String SireMolecule) with
    | .error _ => .error (.alignmentError (scoreAlignMsg m))
    | .ok mol0 =>
      let c0 := m.map (fun p => mol0.coords p.1)
      let c1 := m.map (fun p => molecule1.coords p.2)
      match scoreLoop tk molecule1 is_align mol0 rest with
      | .error e => .error e
      | .ok scores => .ok (tk.getRMSD c0 c1 :: scores)

/-- Line 551: `sorted(range(len(scores)), key=lambda k: scores[k])`.
Python's sort is stable; the unique stable ascending-by-key ordering is
computed here with insertion sort. -/
def sortKeys (scores : List ℚ) : List Nat :=
  (List.range scores.length).insertionSort (fun a b => scores.getD a 0 ≤ scores.getD b 0)

/-- Line 554: `mappings = [mappings[x] for x in keys]`. -/
def sortedMappings (scores : List ℚ) (mappings : List Mapping) : List Mapping :=
  (sortKeys scores).map (fun k => mappings.getD k [])

/-- Line 557: `scores = [scores[x] * _Units.Length.angstrom for x in keys]`. -/
def sortedScores (scores : List ℚ) : List SLength :=
  (sortKeys scores).map (fun k => mulAngstrom (scores.getD k 0))

/-- `_score_rmsd`: score every candidate mapping, stable-sort the
candidate indices by ascending score, and return the mappings and the
scores (converted to angstroms) reordered by this sort. -/
def scoreRmsd (tk : Toolkit) (molecule0 molecule1 : SireMolecule)
    (mappings : List Mapping) (is_align : Bool) :
    Except PyError (List Mapping × List SLength) :=
  match scoreLoop tk molecule1 is_align molecule0 mappings with
  | .error e => .error e
  | .ok scores => .ok (sortedMappings scores mappings, sortedScores scores)

/-! ### `matchAtoms` (lines 47-299 of `_align.py`) -/

/-- Line 151: the supported scoring functions, upper-cased and
space-stripped. -/
def scoringFunctions : List String := ["RMSD", "RMSDALIGN"]

/-- Lines 164-165: strip whitespace and convert to upper case. -/
def normName (s : String) : String := upperStr (stripSpaces s)

/-- Lines 182-183: is an atom-index pair within range of the two
molecules? -/
def pairInRange (mol0 mol1 : SireMolecule) (p : Int × Int) : Bool :=
  decide (0 ≤ p.1) && decide (p.1 < (mol0.nAtoms : Int)) &&
  decide (0 ≤ p.2) && decide (p.2 < (mol1.nAtoms : Int))

/-- Lines 179-186: the first out-of-range pair of a user mapping, if
any (the validation loop raises at the first offender). -/
def firstBadPair (mol0 mol1 : SireMolecule) (pm : Mapping) : Option (Int × Int) :=
  pm.find? (fun p => !(pairInRange mol0 mol1 p))

/-- The `ValueError` message for an out-of-range pair (lines 184-186 and
374-376). -/
def rangeErrMsg (which : String) (mol0 mol1 : SireMolecule) (p : Int × Int) : String :=
  quoteStr which ++ " dictionary key:value pair " ++
  quoteStr (toString p.1 ++ " : " ++ toString p.2) ++
  " is out of range! The molecules contain " ++ toString mol0.nAtoms ++
  " and " ++ toString mol1.nAtoms ++ " atoms."

/-- Lines 224-255: when the user passed no prematch, derive one with
RDKit; if the derivation fails for any reason the exception is swallowed
(`except: pass`) and the prematch stays empty.  The derived dict is bound
in a single assignment, so a failure never leaves a partial prematch. -/
def effectivePrematch (tk : Toolkit) (mol0 mol1 : SireMolecule)
    (prematch : Mapping) : Mapping :=
  if prematch.length = 0 then
    match tk.rdkitPrematch mol0 mol1 with
    | some derived => derived
    | none => prematch
  else prematch

/-- Lines 269-279: keep the run whose first mapping matched more atom
pairs; the widened run is kept only when it is non-empty and strictly
better (or the strict run is empty). -/
def selectMappings (m0 m1 : List Mapping) : List Mapping :=
  if 0 < m1.length then
    if 0 < m0.length then
      if (m0.headD []).length < (m1.headD []).length then m1 else m0
    else m1
  else m0

/-- Lines 257-279: run the substructure search twice — same prematch,
same time budget, same property maps — once with match width `6`
(disallowing heavy/light cross-matching) and once with match width `0`
(allowing them), then select between the two result lists. -/
def selectedMappings (tk : Toolkit) (mol0 mol1 : SireMolecule) (prematch : Mapping)
    (t : ℚ) (match_light : Bool) (pm0 pm1 : PropMap) (verbose : Bool) : List Mapping :=
  selectMappings
    (tk.findMCSmatches mol0 mol1 prematch t match_light pm0 pm1 6 verbose)
    (tk.findMCSmatches mol0 mol1 prematch t match_light pm0 pm1 0 verbose)

/-- Lines 281-299: post-processing of the selected mappings.  No mapping
means Python `None`; a `matches` count of 1 returns the single best mapping
(`_score_rmsd(...)[0][0]`); otherwise the top `matches` mappings are
returned, zipped with their scores when `return_scores` is set. -/
def matchAtomsPost (tk : Toolkit) (mol0 mol1 : SireMolecule) (is_align : Bool)
    (nmatches : Int) (return_scores : Bool) (mappings : List Mapping) :
    Except PyError MatchResult :=
  if mappings.length = 0 then .ok .pyNone
  else if nmatches = 1 then
    match scoreRmsd tk mol0 mol1 mappings is_align with
    | .error e => .error e
    | .ok (ms, _) =>
      match ms with
      | [] => .error (.indexError "list index out of range")
      | m :: _ => .ok (.single m)
  else
    match scoreRmsd tk mol0 mol1 mappings is_align with
    | .error e => .error e
    | .ok (ms, ss) =>
      if return_scores then
        .ok (.manyWithScores (ms.take nmatches.toNat) (ss.take nmatches.toNat))
      else .ok (.many (ms.take nmatches.toNat))

/-- `matchAtoms` (lines 47-299).  The static type checks of the Python
source (molecule, dict, bool and time arguments) are enforced by the Lean
types; the value checks are embedded in source order: unsupported scoring
function, negative `matches`, out-of-range prematch pair. -/
def matchAtoms (tk : Toolkit) (molecule0 molecule1 : SireMolecule)
    (scoring_function : String) (nmatches : Int) (return_scores : Bool)
    (prematch : Mapping) (timeout : BTime) (match_light : Bool)
    (property_map0 property_map1 : PropMap) (verbose : Bool) :
    Except PyError MatchResult :=
  let sf := normName scoring_function
  if sf ∈ scoringFunctions then
    if nmatches < 0 then .error (.valueError "\x27matches\x27 must be positive!")
    else
      match firstBadPair molecule0 molecule1 prematch with
      | some p => .error (.valueError (rangeErrMsg "prematch" molecule0 molecule1 p))
      | none =>
        let is_align := sf == "RMSDALIGN"
        let pm := effectivePrematch tk molecule0 molecule1 prematch
        matchAtomsPost tk molecule0 molecule1 is_align nmatches return_scores
          (selectedMappings tk molecule0 molecule1 pm timeout.sire match_light
            property_map0 property_map1 verbose)
  else
    .error (.valueError ("Unsupported scoring function " ++ quoteStr sf ++
      ". Options are: " ++ listRepr scoringFunctions))

/-! ### `rmsdAlign` (lines 301-394 of `_align.py`) -/

/-- The `matchAtoms` result bound to `mapping` on line 380: with the
default count of 1 this is a dict or `None`. -/
def matchResultToMapping : MatchResult → Option Mapping
  | .single m => some m
  | _ => none

/-- Lines 388-391: perform the fit `mol0.move().align(mol1, ...)`; on any
failure raise `AlignmentError` carrying the mapping, with the low-level
cause suppressed (`from None`). -/
def alignStep (tk : Toolkit) (mol0 mol1 : SireMolecule) (mo : Option Mapping) :
    Except PyError SireMolecule :=
  match tk.align mol0 mol1 mo with
  | .ok mol => .ok mol
  | .error _ => .error (.alignmentError (alignMsg mo))

/-- `rmsdAlign`: validate a user-supplied mapping (or derive one with
`matchAtoms` under default options), then fit `molecule0` onto
`molecule1`. -/
def rmsdAlign (tk : Toolkit) (molecule0 molecule1 : SireMolecule)
    (mapping : Option Mapping) (property_map0 property_map1 : PropMap) :
    Except PyError SireMolecule :=
  match mapping with
  | some m =>
    match firstBadPair molecule0 molecule1 m with
    | some p => .error (.valueError (rangeErrMsg "mapping" molecule0 molecule1 p))
    | none => alignStep tk molecule0 molecule1 (some m)
  | none =>
    match matchAtoms tk molecule0 molecule1 "RMSD align" 1 false [] ⟨5, 1⟩ true
        property_map0 property_map1 false with
    | .error e => .error e
    | .ok r => alignStep tk molecule0 molecule1 (matchResultToMapping r)

/-! ### Data model of the parameterisation module (`_parameters.py`) -/

/-- A molecule handle as seen by the parameterisation dispatcher (passed
through opaquely). -/
abbrev PMolecule : Type := Nat

/-- The module-level environment of `_parameters.py`: the AMBER/GROMACS
installation probes imported on line 39, and the base names (extension
stripped) of the `.offxml` files discovered by the glob over the Open
Force Field dataset directories (lines 492-504), in scan order. -/
structure PEnv where
  amber_home : Option String
  gmx_exe : Option String
  gromacs_path : Option String
  offxml : List String

/-- A Python value passed as `net_charge`: an `int`, a `float`, a
`BioSimSpace.Types.Charge` (with its magnitude), or a value that `int()`
cannot convert. -/
inductive PyNum where
  | pint (i : Int)
  | pfloat (q : ℚ)
  | pcharge (q : ℚ)
  | pother
deriving DecidableEq, Repr

/-- The parameterisation protocol records constructed by the dispatch
functions (`_Protocol.FF99(...)`, `_Protocol.GAFF(net_charge=...)`,
etc.). -/
inductive Protocol where
  | FF99 (property_map : PropMap)
  | FF99SB (property_map : PropMap)
  | FF99SBILDN (property_map : PropMap)
  | FF03 (property_map : PropMap)
  | FF14SB (property_map : PropMap)
  | GAFF (net_charge : Option Int) (property_map : PropMap)
  | GAFF2 (net_charge : Option Int) (property_map : PropMap)
deriving DecidableEq, Repr

/-- Modelled from the spec: `BioSimSpace.Parameters._process.Process` is
not under `src/`.  Per the spec, submitting the configuration record to
the background task returns this handle immediately; the handle records
the molecule, the protocol and the working directory, and was auto-started
(`auto_start=True`). -/
structure Process where
  molecule : PMolecule
  protocol : Protocol
  work_dir : Option String
  auto_start : Bool
deriving DecidableEq, Repr

/-- What a dispatch function returns: a `Process` handle, or Python
`None` (a function that falls off its end). -/
inductive DispatchResult where
  | proc (p : Process)
  | pyNone
deriving DecidableEq, Repr

/-- Lines 111-114 (and analogues): neither AMBER nor a full GROMACS
installation is available. -/
def amberAndGmxMissing (env : PEnv) : Bool :=
  env.amber_home.isNone && (env.gmx_exe.isNone || env.gromacs_path.isNone)

/-- The `MissingSoftwareError` message of the protein force-field
functions. -/
def missingBothMsg (name : String) : String :=
  quoteStr ("BioSimSpace.Parameters." ++ name) ++
  " is not supported. Please install AMBER (http://ambermd.org) or GROMACS (http://www.gromacs.org)."

/-- The `MissingSoftwareError` message of the AMBER-only functions. -/
def missingAmberMsg (name : String) : String :=
  quoteStr ("BioSimSpace.Parameters." ++ name) ++
  " is not supported. Please install AMBER (http://ambermd.org)."

/-- `ff99` (lines 87-129). -/
def ff99 (env : PEnv) (molecule : PMolecule) (work_dir : Option String)
    (property_map : PropMap) : Except PyError DispatchResult :=
  if amberAndGmxMissing env then
    .error (.missingSoftwareError (missingBothMsg "ff99"))
  else .ok (.proc ⟨molecule, .FF99 property_map, work_dir, true⟩)

/-- `ff99SB` (lines 131-173). -/
def ff99SB (env : PEnv) (molecule : PMolecule) (work_dir : Option String)
    (property_map : PropMap) : Except PyError DispatchResult :=
  if amberAndGmxMissing env then
    .error (.missingSoftwareError (missingBothMsg "ff99SB"))
  else .ok (.proc ⟨molecule, .FF99SB property_map, work_dir, true⟩)

/-- `ff99SBildn` (lines 175-217). -/
def ff99SBildn (env : PEnv) (molecule : PMolecule) (work_dir : Option String)
    (property_map : PropMap) : Except PyError DispatchResult :=
  if amberAndGmxMissing env then
    .error (.missingSoftwareError (missingBothMsg "ff99SBildn"))
  else .ok (.proc ⟨molecule, .FF99SBILDN property_map, work_dir, true⟩)

/-- `ff03` (lines 219-261). -/
def ff03 (env : PEnv) (molecule : PMolecule) (work_dir : Option String)
    (property_map : PropMap) : Except PyError DispatchResult :=
  if amberAndGmxMissing env then
    .error (.missingSoftwareError (missingBothMsg "ff03"))
  else .ok (.proc ⟨molecule, .FF03 property_map, work_dir, true⟩)

/-- `ff14SB` (lines 263-304). -/
def ff14SB (env : PEnv) (molecule : PMolecule) (work_dir : Option String)
    (property_map : PropMap) : Except PyError DispatchResult :=
  if env.amber_home.isNone then
    .error (.missingSoftwareError (missingAmberMsg "ff14SB"))
  else .ok (.proc ⟨molecule, .FF14SB property_map, work_dir, true⟩)

/-! ### Net-charge coercion (lines 342-355 and 403-419) -/

/-- Python `int(x)` truncates a float toward zero. -/
def truncRat (q : ℚ) : Int := if q < 0 then -(Rat.floor (-q)) else Rat.floor q

/-- Python `int(net_charge)`: an `int` is returned as is, a `float` is
truncated; anything else raises (swallowed by the bare `except` of the
source and re-raised as `TypeError`). -/
def pyToInt : PyNum → Option Int
  | .pint i => some i
  | .pfloat q => some (truncRat q)
  | .pcharge _ => none
  | .pother => none

/-- Lines 344-345: a `Charge` quantity is replaced by its magnitude,
which is a `float`. -/
def magnitudeStep : PyNum → PyNum
  | .pcharge q => .pfloat q
  | v => v

/-- Lines 347-349: `net_charge % 1 != 0` for a `float`. -/
def fractionalFloat : PyNum → Bool
  | .pfloat q => q.den ≠ 1
  | _ => false

/-- The net-charge coercion of `gaff` (lines 342-355): take the magnitude
of a `Charge`, reject a fractional `float` with `ValueError`, then
convert with `int()`, any conversion failure becoming `TypeError`. -/
def coerceNetCharge (nc : Option PyNum) : Except PyError (Option Int) :=
  match nc with
  | none => .ok none
  | some v0 =>
    let v := magnitudeStep v0
    if fractionalFloat v then
      .error (.valueError "\x27net_charge\x27 must be integer valued.")
    else
      match pyToInt v with
      | some i => .ok (some i)
      | none => .error (.typeError
          "\x27net_charge\x27 must be of type \x27int\x27, or \x60BioSimSpace.Types.Charge\x27")

/-- `gaff` (lines 306-365). -/
def gaff (env : PEnv) (molecule : PMolecule) (work_dir : Option String)
    (net_charge : Option PyNum) (property_map : PropMap) :
    Except PyError DispatchResult :=
  if env.amber_home.isNone then
    .error (.missingSoftwareError (missingAmberMsg "gaff"))
  else
    match coerceNetCharge net_charge with
    | .error e => .error e
    | .ok nc => .ok (.proc ⟨molecule, .GAFF nc property_map, work_dir, true⟩)

/-- `gaff2` (lines 367-429): as `gaff`, plus a residual integrality check
of the already-converted integer (lines 418-419, never taken since
`i % 1 == 0` for every integer). -/
def gaff2 (env : PEnv) (molecule : PMolecule) (work_dir : Option String)
    (net_charge : Option PyNum) (property_map : PropMap) :
    Except PyError DispatchResult :=
  if env.amber_home.isNone then
    .error (.missingSoftwareError (missingAmberMsg "gaff2"))
  else
    match coerceNetCharge net_charge with
    | .error e => .error e
    | .ok none => .ok (.proc ⟨molecule, .GAFF2 none property_map, work_dir, true⟩)
    | .ok (some i) =>
      if i % 1 ≠ 0 then
        .error (.valueError "\x27net_charge\x27 must be integer valued.")
      else .ok (.proc ⟨molecule, .GAFF2 (some i) property_map, work_dir, true⟩)

/-! ### The force-field registry and `parameterise` (lines 48-85 and
462-524) -/

/-- `_parameterise_openff` (lines 431-460): despite a docstring promising
the parameterised molecule, the body only prints the force-field name and
falls off the end, returning `None`. -/
def parameteriseOpenff (_molecule : PMolecule) (_forcefield : String)
    (_work_dir : Option String) (_property_map : PropMap) : DispatchResult :=
  .pyNone

/-- Lines 506-509: replace `"-"` and `"."` with `"_"` in a force-field
file name. -/
def sanitizeName (s : String) : String := subChar '.' '_' (subChar '-' '_' s)

/-- `_make_function` (lines 482-485): the synthesized dispatch function
for an Open Force Field name calls `_parameterise_openff` with the
sanitized name, ignores its result, and itself returns `None`. -/
def openffFunction (name : String) (molecule : PMolecule)
    (work_dir : Option String) (property_map : PropMap) :
    Except PyError DispatchResult :=
  let _r := parameteriseOpenff molecule name work_dir property_map
  .ok .pyNone

/-- Lines 464-473: the named parameterisation functions picked up by the
`dir()` scan (alphabetical, skipping underscore names and names starting
with `p`/`P`; `forceFields` and `openForceFields` are defined only after
the scan). -/
def namedForcefields : List String :=
  ["ff03", "ff14SB", "ff99", "ff99SB", "ff99SBildn", "gaff", "gaff2"]

/-- `_forcefields` (built on lines 464-523): the named functions followed
by the discovered Open Force Field names; returned by `forceFields()`. -/
def forceFields (env : PEnv) : List String := namedForcefields ++ env.offxml

/-- `_forcefields_lower`: the same names in lower case. -/
def forcefieldsLower (env : PEnv) : List String :=
  namedForcefields.map lowerStr ++ env.offxml.map lowerStr

/-- The type of entries of `_forcefield_dict`. -/
abbrev DispatchFn : Type :=
  PEnv → PMolecule → Option String → PropMap → Except PyError DispatchResult

/-- The `_forcefield_dict` entries, in insertion order: one per named
function (keyed by its lower-cased name, line 473; `gaff`/`gaff2` are
invoked without a net charge by the dispatcher), then one per discovered
Open Force Field file (keyed by the lower-cased file name, line 520,
bound to the function synthesized from the sanitized name). -/
def dictEntries (env : PEnv) : List (String × DispatchFn) :=
  [("ff03", fun e m wd pm => ff03 e m wd pm),
   ("ff14sb", fun e m wd pm => ff14SB e m wd pm),
   ("ff99", fun e m wd pm => ff99 e m wd pm),
   ("ff99sb", fun e m wd pm => ff99SB e m wd pm),
   ("ff99sbildn", fun e m wd pm => ff99SBildn e m wd pm),
   ("gaff", fun e m wd pm => gaff e m wd none pm),
   ("gaff2", fun e m wd pm => gaff2 e m wd none pm)] ++
  env.offxml.map (fun f =>
    (lowerStr f, fun _ m wd pm => openffFunction (sanitizeName f) m wd pm))

/-- Dictionary lookup in `_forcefield_dict`: the last insertion for a key
wins. -/
def lookupFF (env : PEnv) (ff : String) : Option DispatchFn :=
  ((dictEntries env).reverse.find? (fun e => e.1 == ff)).map (fun e => e.2)

/-- `parameterise` (lines 48-85): strip whitespace from the force-field
name and lower-case it; an unknown name raises `ValueError` listing the
registered force fields; otherwise the registered function is invoked. -/
def parameterise (env : PEnv) (molecule : PMolecule) (forcefield : String)
    (work_dir : Option String) (property_map : PropMap) :
    Except PyError DispatchResult :=
  let ff := lowerStr (stripSpaces forcefield)
  if ff ∈ forcefieldsLower env then
    match lookupFF env ff with
    | some fn => fn env molecule work_dir property_map
    | none => .error (.valueError "key error")
  else
    .error (.valueError ("Supported force fields are: " ++ listRepr (forceFields env)))

/-! ### Concrete instances

Small closed toolkits, molecules and environments used to evaluate the
embedded code on concrete inputs. -/

/-- A toolkit whose search finds nothing, whose fit is the identity and
whose RMSD is constantly zero. -/
def tkZero : Toolkit :=
  ⟨fun _ _ _ _ _ _ _ _ _ => [], fun m _ _ => .ok m, fun _ _ => 0, fun _ _ => none⟩

/-- A toolkit whose strict run (match width 6) finds one single-pair
mapping and whose widened run finds nothing. -/
def tkOne : Toolkit :=
  ⟨fun _ _ _ _ _ _ _ w _ => if w = 6 then [[(0, 0)]] else [],
   fun m _ _ => .ok m, fun _ _ => 0, fun _ _ => none⟩

/-- A toolkit whose rigid-body fit always fails. -/
def tkFail : Toolkit :=
  ⟨fun _ _ _ _ _ _ _ _ _ => [], fun _ _ _ => .error "singular matrix",
   fun _ _ => 0, fun _ _ => none⟩

/-- A one-atom molecule at the origin. -/
def molW : SireMolecule := ⟨1, fun _ => (0, 0, 0)⟩

/-- A concrete candidate list: one single-pair mapping and one empty
mapping. -/
def msW : List Mapping := [[(0, 0)], []]

/-- The scores `tkZero` assigns to `msW` (all zero — a tie). -/
def csW : List ℚ := [0, 0]

/-- An environment with AMBER installed, no GROMACS, and one discovered
Open Force Field file. -/
def envAmber : PEnv := ⟨some "/opt/amber", none, none, ["openff-1.0.0"]⟩

/-! ### Helper lemmas about the stable sort of candidate indices -/

theorem getD_map_range {α : Type} (l : List α) (d : α) :
    (List.range l.length).map (fun k => l.getD k d) = l := by
  induction l with
  | nil => rfl
  | cons a t ih =>
    rw [List.length_cons, List.range_succ_eq_map, List.map_cons, List.map_map]
    simp only [Function.comp_def, List.getD_cons_zero, List.getD_cons_succ]
    rw [ih]

theorem pair_sublist_range {k1 k2 n : Nat} (h12 : k1 < k2) (h2 : k2 < n) :
    List.Sublist [k1, k2] (List.range n) := by
  have h1 : List.Sublist [k1] (List.range k2) :=
    List.singleton_sublist.mpr (List.mem_range.mpr h12)
  have hpair : List.Sublist [k1, k2] (List.range k2 ++ [k2]) := by
    simpa using h1.append (List.Sublist.refl [k2])
  have hr : List.range k2 ++ [k2] = List.range (k2 + 1) := (List.range_succ k2).symm
  rw [hr] at hpair
  exact hpair.trans ((List.range_sublist).mpr h2)

theorem sortKeys_perm (cs : List ℚ) : (sortKeys cs).Perm (List.range cs.length) :=
  List.perm_insertionSort _ _

theorem sortKeys_length (cs : List ℚ) : (sortKeys cs).length = cs.length := by
  rw [(sortKeys_perm cs).length_eq, List.length_range]

theorem sortKeys_sorted (cs : List ℚ) :
    List.Sorted (· ≤ ·) ((sortKeys cs).map fun k => cs.getD k 0) := by
  haveI : IsTotal Nat (fun a b => cs.getD a 0 ≤ cs.getD b 0) := ⟨fun a b => le_total _ _⟩
  haveI : IsTrans Nat (fun a b => cs.getD a 0 ≤ cs.getD b 0) :=
    ⟨fun _ _ _ h1 h2 => le_trans h1 h2⟩
  have h := List.sorted_insertionSort (fun a b => cs.getD a 0 ≤ cs.getD b 0)
    (List.range cs.length)
  exact h.map _ (fun _ _ hr => hr)

theorem sortKeys_stable (cs : List ℚ) {k1 k2 : Nat} (h12 : k1 < k2) (h2 : k2 < cs.length)
    (heq : cs.getD k1 0 = cs.getD k2 0) : List.Sublist [k1, k2] (sortKeys cs) :=
  List.pair_sublist_insertionSort (le_of_eq heq) (pair_sublist_range h12 h2)

theorem sortedMappings_perm (cs : List ℚ) (ms : List Mapping)
    (hlen : cs.length = ms.length) : (sortedMappings cs ms).Perm ms := by
  have h := (sortKeys_perm cs).map (fun k => ms.getD k [])
  rw [hlen] at h
  rw [sortedMappings]
  exact h.trans (by rw [getD_map_range])

theorem sortedMappings_length (cs : List ℚ) (ms : List Mapping)
    (hlen : cs.length = ms.length) : (sortedMappings cs ms).length = ms.length :=
  (sortedMappings_perm cs ms hlen).length_eq

theorem sortedScores_sorted (cs : List ℚ) :
    List.Sorted (· ≤ ·) ((sortedScores cs).map SLength.magnitude) := by
  have h := sortKeys_sorted cs
  simpa [sortedScores, List.map_map, Function.comp_def, mulAngstrom] using h

/-! ### Helper lemmas about the scoring loop and `_score_rmsd` -/

theorem scoreLoop_length (tk : Toolkit) (mol1 : SireMolecule) (a : Bool) :
    ∀ (mol0 : SireMolecule) (ms : List Mapping) (cs : List ℚ),
      scoreLoop tk mol1 a mol0 ms = .ok cs → cs.length = ms.length := by
  intro mol0 ms
  induction ms generalizing mol0 with
  | nil =>
    intro cs h
    simp only [scoreLoop] at h
    cases h
    rfl
  | cons m rest ih =>
    intro cs h
    simp only [scoreLoop] at h
    split at h
    · cases h
    next mol0' _ =>
      split at h
      · cases h
      next scores hrec =>
        cases h
        simp [ih mol0' scores hrec]

theorem scoreRmsd_eq (tk : Toolkit) (mol0 mol1 : SireMolecule) (ms : List Mapping)
    (a : Bool) (cs : List ℚ) (h : scoreLoop tk mol1 a mol0 ms = .ok cs) :
    scoreRmsd tk mol0 mol1 ms a = .ok (sortedMappings cs ms, sortedScores cs) := by
  rw [scoreRmsd, h]

theorem scoreRmsd_error (tk : Toolkit) (mol0 mol1 : SireMolecule) (ms : List Mapping)
    (a : Bool) (e : PyError) (h : scoreRmsd tk mol0 mol1 ms a = .error e) :
    scoreLoop tk mol1 a mol0 ms = .error e := by
  rw [scoreRmsd] at h
  split at h
  · cases h
    assumption
  · cases h

theorem scoreLoop_error_mem (tk : Toolkit) (mol1 : SireMolecule) (a : Bool) :
    ∀ (mol0 : SireMolecule) (ms : List Mapping) (e : PyError),
      scoreLoop tk mol1 a mol0 ms = .error e →
      ∃ m ∈ ms, e = .alignmentError (scoreAlignMsg m) := by
  intro mol0 ms
  induction ms generalizing mol0 with
  | nil =>
    intro e h
    simp only [scoreLoop] at h
    cases h
  | cons m rest ih =>
    intro e h
    simp only [scoreLoop] at h
    split at h
    · simp only [Except.error.injEq] at h
      subst h
      exact ⟨m, List.mem_cons_self m rest, rfl⟩
    next mol0' _ =>
      cases hrec : scoreLoop tk mol1 a mol0' rest with
      | error e2 =>
        simp only [hrec, Except.error.injEq] at h
        subst h
        obtain ⟨mm, hmm, he⟩ := ih mol0' e2 hrec
        exact ⟨mm, List.mem_cons_of_mem m hmm, he⟩
      | ok scores =>
        simp only [hrec] at h
        cases h

/-! ### Helper lemmas about `matchAtoms` -/

theorem matchAtoms_valid_eq (tk : Toolkit) (mol0 mol1 : SireMolecule) (sf : String)
    (nmatches : Int) (rs : Bool) (prematch : Mapping) (timeout : BTime)
    (ml : Bool) (pm0 pm1 : PropMap) (vb : Bool)
    (hsf : normName sf ∈ scoringFunctions) (hm : ¬ nmatches < 0)
    (hpm : firstBadPair mol0 mol1 prematch = none) :
    matchAtoms tk mol0 mol1 sf nmatches rs prematch timeout ml pm0 pm1 vb =
      matchAtomsPost tk mol0 mol1 (normName sf == "RMSDALIGN") nmatches rs
        (selectedMappings tk mol0 mol1 (effectivePrematch tk mol0 mol1 prematch)
          timeout.sire ml pm0 pm1 vb) := by
  simp only [matchAtoms, hpm]
  rw [if_pos hsf, if_neg hm]

theorem matchAtomsPost_pyNone (tk : Toolkit) (mol0 mol1 : SireMolecule)
    (a : Bool) (nmatches : Int) (rs : Bool) (ms : List Mapping)
    (h : matchAtomsPost tk mol0 mol1 a nmatches rs ms = .ok .pyNone) : ms = [] := by
  by_contra hne
  have hlen : ¬ ms.length = 0 := fun h0 => hne (List.length_eq_zero.mp h0)
  rw [matchAtomsPost, if_neg hlen] at h
  by_cases h1 : nmatches = 1
  · rw [if_pos h1] at h
    cases hs : scoreRmsd tk mol0 mol1 ms a with
    | error e => rw [hs] at h; cases h
    | ok p =>
      rw [hs] at h
      cases p with
      | mk ms2 ss2 =>
        cases ms2 with
        | nil => cases h
        | cons x t => cases h
  · rw [if_neg h1] at h
    cases hs : scoreRmsd tk mol0 mol1 ms a with
    | error e => rw [hs] at h; cases h
    | ok p =>
      rw [hs] at h
      cases p with
      | mk ms2 ss2 =>
        cases hrs : rs with
        | false => rw [hrs] at h; simp at h
        | true => rw [hrs] at h; simp at h

/-! ### The claims -/

/-- C1: for every non-empty candidate list whose scoring loop succeeds,
`_score_rmsd` returns the mappings reordered by the stable ascending sort
of the computed scores together with the correspondingly reordered
scores: the returned mappings are a permutation of the input, the
returned score list is non-decreasing, the i-th returned score is the
score of the i-th returned mapping (both are indexed by the same sorted
key list), and candidates with equal scores keep their original relative
order. -/
theorem scoreRmsd_sorted_stable (tk : Toolkit) (molecule0 molecule1 : SireMolecule)
    (mappings : List Mapping) (is_align : Bool) (cs : List ℚ)
    (hloop : scoreLoop tk molecule1 is_align molecule0 mappings = .ok cs)
    (hne : mappings ≠ []) :
    scoreRmsd tk molecule0 molecule1 mappings is_align =
      .ok (sortedMappings cs mappings, sortedScores cs)
    ∧ (sortedMappings cs mappings).Perm mappings
    ∧ List.Sorted (· ≤ ·) ((sortedScores cs).map SLength.magnitude)
    ∧ sortedMappings cs mappings = (sortKeys cs).map (fun k => mappings.getD k [])
    ∧ sortedScores cs = (sortKeys cs).map (fun k => mulAngstrom (cs.getD k 0))
    ∧ (∀ k1 k2 : Nat, k1 < k2 → k2 < mappings.length → cs.getD k1 0 = cs.getD k2 0 →
        List.Sublist [k1, k2] (sortKeys cs)) := by
  have hlen : cs.length = mappings.length :=
    scoreLoop_length tk molecule1 is_align molecule0 mappings cs hloop
  refine ⟨scoreRmsd_eq tk molecule0 molecule1 mappings is_align cs hloop,
    sortedMappings_perm cs mappings hlen, sortedScores_sorted cs, rfl, rfl,
    fun k1 k2 h12 h2 heq => sortKeys_stable cs h12 (hlen ▸ h2) heq⟩

/-- Closed instance of `scoreRmsd_sorted_stable`: the concrete toolkit
`tkZero` scores both candidates of `msW` at zero. -/
theorem scoreRmsd_sorted_stable_inst :
    scoreRmsd tkZero molW molW msW false = .ok (sortedMappings csW msW, sortedScores csW)
    ∧ (sortedMappings csW msW).Perm msW
    ∧ List.Sorted (· ≤ ·) ((sortedScores csW).map SLength.magnitude)
    ∧ sortedMappings csW msW = (sortKeys csW).map (fun k => msW.getD k [])
    ∧ sortedScores csW = (sortKeys csW).map (fun k => mulAngstrom (csW.getD k 0))
    ∧ (∀ k1 k2 : Nat, k1 < k2 → k2 < msW.length → csW.getD k1 0 = csW.getD k2 0 →
        List.Sublist [k1, k2] (sortKeys csW)) :=
  scoreRmsd_sorted_stable tkZero molW molW msW false csW rfl (by decide)

/-- C2: on validated input, `matchAtoms` post-processes the selection
between two substructure-search runs that share the prematch, the time
budget and every other argument and differ only in the match width (`6`
strict, `0` widened); the widened run is kept exactly when it is
non-empty and its first mapping is strictly larger than the strict run's
first mapping — a widened run with no mappings, or one whose best mapping
is no larger than the strict one's, loses to the strict run. -/
theorem matchAtoms_two_runs (tk : Toolkit) (mol0 mol1 : SireMolecule) (sf : String)
    (nmatches : Int) (rs : Bool) (prematch : Mapping) (timeout : BTime)
    (ml : Bool) (pm0 pm1 : PropMap) (vb : Bool)
    (hsf : normName sf ∈ scoringFunctions) (hm : ¬ nmatches < 0)
    (hpm : firstBadPair mol0 mol1 prematch = none) :
    (matchAtoms tk mol0 mol1 sf nmatches rs prematch timeout ml pm0 pm1 vb =
      matchAtomsPost tk mol0 mol1 (normName sf == "RMSDALIGN") nmatches rs
        (selectMappings
          (tk.findMCSmatches mol0 mol1 (effectivePrematch tk mol0 mol1 prematch)
            timeout.sire ml pm0 pm1 6 vb)
          (tk.findMCSmatches mol0 mol1 (effectivePrematch tk mol0 mol1 prematch)
            timeout.sire ml pm0 pm1 0 vb)))
    ∧ (∀ m0 m1 : List Mapping, m1 = [] → selectMappings m0 m1 = m0)
    ∧ (∀ m0 m1 : List Mapping, m0 = [] → m1 ≠ [] → selectMappings m0 m1 = m1)
    ∧ (∀ m0 m1 : List Mapping, m0 ≠ [] → m1 ≠ [] →
        (m0.headD []).length < (m1.headD []).length → selectMappings m0 m1 = m1)
    ∧ (∀ m0 m1 : List Mapping, m0 ≠ [] → m1 ≠ [] →
        (m1.headD []).length ≤ (m0.headD []).length → selectMappings m0 m1 = m0) := by
  refine ⟨matchAtoms_valid_eq tk mol0 mol1 sf nmatches rs prematch timeout ml pm0 pm1 vb
    hsf hm hpm, ?_, ?_, ?_, ?_⟩
  · intro m0 m1 h1
    simp [selectMappings, h1]
  · intro m0 m1 h0 h1
    simp [selectMappings, h0, List.length_pos.mpr h1]
  · intro m0 m1 h0 h1 hlt
    rw [selectMappings, if_pos (List.length_pos.mpr h1), if_pos (List.length_pos.mpr h0),
      if_pos hlt]
  · intro m0 m1 h0 h1 hle
    rw [selectMappings, if_pos (List.length_pos.mpr h1), if_pos (List.length_pos.mpr h0),
      if_neg (not_lt.mpr hle)]

/-- Closed instance of `matchAtoms_two_runs`: with `tkOne` (strict run
finds one mapping, widened run none) the matcher reduces to the
post-processing of the selection between the two runs. -/
theorem matchAtoms_two_runs_inst :
    matchAtoms tkOne molW molW "RMSD" 1 false [] ⟨5, 1⟩ true [] [] false =
      matchAtomsPost tkOne molW molW (normName "RMSD" == "RMSDALIGN") 1 false
        (selectMappings
          (tkOne.findMCSmatches molW molW (effectivePrematch tkOne molW molW [])
            (BTime.mk 5 1).sire true [] [] 6 false)
          (tkOne.findMCSmatches molW molW (effectivePrematch tkOne molW molW [])
            (BTime.mk 5 1).sire true [] [] 0 false)) :=
  (matchAtoms_two_runs tkOne molW molW "RMSD" 1 false [] ⟨5, 1⟩ true [] [] false
    (by decide) (by decide) rfl).1

/-- C4: on validated input, when both substructure-search runs return an
empty mapping list, `matchAtoms` returns Python `None` — not an empty
mapping and not an error. -/
theorem matchAtoms_no_match (tk : Toolkit) (mol0 mol1 : SireMolecule) (sf : String)
    (nmatches : Int) (rs : Bool) (prematch : Mapping) (timeout : BTime)
    (ml : Bool) (pm0 pm1 : PropMap) (vb : Bool)
    (hsf : normName sf ∈ scoringFunctions) (hm : ¬ nmatches < 0)
    (hpm : firstBadPair mol0 mol1 prematch = none)
    (h6 : tk.findMCSmatches mol0 mol1 (effectivePrematch tk mol0 mol1 prematch)
      timeout.sire ml pm0 pm1 6 vb = [])
    (h0 : tk.findMCSmatches mol0 mol1 (effectivePrematch tk mol0 mol1 prematch)
      timeout.sire ml pm0 pm1 0 vb = []) :
    matchAtoms tk mol0 mol1 sf nmatches rs prematch timeout ml pm0 pm1 vb =
      .ok .pyNone := by
  rw [matchAtoms_valid_eq tk mol0 mol1 sf nmatches rs prematch timeout ml pm0 pm1 vb
    hsf hm hpm, selectedMappings, h6, h0]
  rfl

/-- Closed instance of `matchAtoms_no_match` at the toolkit whose search
always comes back empty. -/
theorem matchAtoms_no_match_inst :
    matchAtoms tkZero molW molW "RMSD align" 1 false [] ⟨5, 1⟩ true [] [] false =
      .ok .pyNone :=
  matchAtoms_no_match tkZero molW molW "RMSD align" 1 false [] ⟨5, 1⟩ true [] [] false
    (by decide) (by decide) rfl rfl rfl

/-- C9: when the user supplies no prematch and the RDKit prematch
derivation fails, the effective prematch is the empty mapping — never a
partially built one — and `matchAtoms` carries on normally with it: the
result is exactly the post-processing of the two search runs seeded with
the empty prematch, and no error from the derivation is surfaced. -/
theorem prematch_failure_swallowed (tk : Toolkit) (mol0 mol1 : SireMolecule)
    (sf : String) (nmatches : Int) (rs : Bool) (timeout : BTime) (ml : Bool)
    (pm0 pm1 : PropMap) (vb : Bool)
    (hfail : tk.rdkitPrematch mol0 mol1 = none)
    (hsf : normName sf ∈ scoringFunctions) (hm : ¬ nmatches < 0) :
    effectivePrematch tk mol0 mol1 [] = []
    ∧ matchAtoms tk mol0 mol1 sf nmatches rs [] timeout ml pm0 pm1 vb =
        matchAtomsPost tk mol0 mol1 (normName sf == "RMSDALIGN") nmatches rs
          (selectedMappings tk mol0 mol1 [] timeout.sire ml pm0 pm1 vb) := by
  have hep : effectivePrematch tk mol0 mol1 [] = [] := by
    simp [effectivePrematch, hfail]
  refine ⟨hep, ?_⟩
  rw [matchAtoms_valid_eq tk mol0 mol1 sf nmatches rs [] timeout ml pm0 pm1 vb
    hsf hm rfl, hep]

/-- Closed instance of `prematch_failure_swallowed`: `tkZero` fails the
RDKit derivation and the matcher proceeds with an empty prematch. -/
theorem prematch_failure_swallowed_inst :
    effectivePrematch tkZero molW molW [] = []
    ∧ matchAtoms tkZero molW molW "RMSD" 1 false [] ⟨5, 1⟩ true [] [] false =
        matchAtomsPost tkZero molW molW (normName "RMSD" == "RMSDALIGN") 1 false
          (selectedMappings tkZero molW molW [] (BTime.mk 5 1).sire true [] [] false) :=
  prematch_failure_swallowed tkZero molW molW "RMSD" 1 false ⟨5, 1⟩ true [] [] false
    rfl (by decide) (by decide)

/-- C3: on validated input whose search found at least one mapping and
whose scoring loop succeeds, `matchAtoms` with a match count of 1 returns
a single mapping (the head of the sorted list, not a sequence); with a
count `N > 1` and `return_scores = false` it returns the list of the
first `N` sorted mappings (of length at most `N`); with
`return_scores = true` it returns that list paired with the matching
score prefix; and the sorted score list is non-decreasing (best first). -/
theorem matchAtoms_return_formats (tk : Toolkit) (mol0 mol1 : SireMolecule)
    (sf : String) (nmatches : Int) (rs : Bool) (prematch : Mapping) (timeout : BTime)
    (ml : Bool) (pm0 pm1 : PropMap) (vb : Bool) (cs : List ℚ)
    (hsf : normName sf ∈ scoringFunctions)
    (hpm : firstBadPair mol0 mol1 prematch = none)
    (hloop : scoreLoop tk mol1 (normName sf == "RMSDALIGN") mol0
      (selectedMappings tk mol0 mol1 (effectivePrematch tk mol0 mol1 prematch)
        timeout.sire ml pm0 pm1 vb) = .ok cs)
    (hne : selectedMappings tk mol0 mol1 (effectivePrematch tk mol0 mol1 prematch)
      timeout.sire ml pm0 pm1 vb ≠ []) :
    List.Sorted (· ≤ ·) ((sortedScores cs).map SLength.magnitude)
    ∧ (nmatches = 1 →
        matchAtoms tk mol0 mol1 sf nmatches rs prematch timeout ml pm0 pm1 vb =
          .ok (.single ((sortedMappings cs (selectedMappings tk mol0 mol1
            (effectivePrematch tk mol0 mol1 prematch) timeout.sire ml pm0 pm1 vb)).headD [])))
    ∧ (1 < nmatches → rs = false →
        matchAtoms tk mol0 mol1 sf nmatches rs prematch timeout ml pm0 pm1 vb =
          .ok (.many ((sortedMappings cs (selectedMappings tk mol0 mol1
            (effectivePrematch tk mol0 mol1 prematch) timeout.sire ml pm0 pm1 vb)).take
              nmatches.toNat))
        ∧ ((sortedMappings cs (selectedMappings tk mol0 mol1
            (effectivePrematch tk mol0 mol1 prematch) timeout.sire ml pm0 pm1 vb)).take
              nmatches.toNat).length ≤ nmatches.toNat)
    ∧ (1 < nmatches → rs = true →
        matchAtoms tk mol0 mol1 sf nmatches rs prematch timeout ml pm0 pm1 vb =
          .ok (.manyWithScores
            ((sortedMappings cs (selectedMappings tk mol0 mol1
              (effectivePrematch tk mol0 mol1 prematch) timeout.sire ml pm0 pm1 vb)).take
                nmatches.toNat)
            ((sortedScores cs).take nmatches.toNat))
        ∧ ((sortedMappings cs (selectedMappings tk mol0 mol1
            (effectivePrematch tk mol0 mol1 prematch) timeout.sire ml pm0 pm1 vb)).take
              nmatches.toNat).length ≤ nmatches.toNat
        ∧ ((sortedScores cs).take nmatches.toNat).length ≤ nmatches.toNat) := by
  set msel := selectedMappings tk mol0 mol1 (effectivePrematch tk mol0 mol1 prematch)
    timeout.sire ml pm0 pm1 vb with hmsel
  have hlen0 : ¬ msel.length = 0 := fun h => hne (List.length_eq_zero.mp h)
  have heq := scoreRmsd_eq tk mol0 mol1 msel (normName sf == "RMSDALIGN") cs hloop
  refine ⟨sortedScores_sorted cs, ?_, ?_, ?_⟩
  · intro h1
    subst h1
    rw [matchAtoms_valid_eq tk mol0 mol1 sf 1 rs prematch timeout ml pm0 pm1 vb
      hsf (by decide) hpm, ← hmsel, matchAtomsPost, if_neg hlen0, if_pos rfl, heq]
    cases hms : sortedMappings cs msel with
    | nil =>
      exfalso
      have := sortedMappings_length cs msel
        (scoreLoop_length tk mol1 (normName sf == "RMSDALIGN") mol0 msel cs hloop)
      rw [hms] at this
      exact hlen0 this.symm
    | cons a t => rfl
  · intro hN hrs
    subst hrs
    rw [matchAtoms_valid_eq tk mol0 mol1 sf nmatches false prematch timeout ml pm0 pm1 vb
      hsf (by omega) hpm, ← hmsel, matchAtomsPost, if_neg hlen0,
      if_neg (by omega : ¬ nmatches = 1), heq]
    exact ⟨rfl, List.length_take_le _ _⟩
  · intro hN hrs
    subst hrs
    rw [matchAtoms_valid_eq tk mol0 mol1 sf nmatches true prematch timeout ml pm0 pm1 vb
      hsf (by omega) hpm, ← hmsel, matchAtomsPost, if_neg hlen0,
      if_neg (by omega : ¬ nmatches = 1), heq]
    exact ⟨rfl, List.length_take_le _ _, List.length_take_le _ _⟩

/-- Closed instance of `matchAtoms_return_formats` at `tkOne`, whose
strict run finds the single mapping `[(0, 0)]`. -/
theorem matchAtoms_return_formats_inst :
    List.Sorted (· ≤ ·) ((sortedScores [0]).map SLength.magnitude)
    ∧ ((1 : Int) = 1 →
        matchAtoms tkOne molW molW "RMSD" 1 false [] ⟨5, 1⟩ true [] [] false =
          .ok (.single ((sortedMappings [0] (selectedMappings tkOne molW molW
            (effectivePrematch tkOne molW molW []) (BTime.mk 5 1).sire true [] []
              false)).headD [])))
    ∧ (1 < (1 : Int) → false = false →
        matchAtoms tkOne molW molW "RMSD" 1 false [] ⟨5, 1⟩ true [] [] false =
          .ok (.many ((sortedMappings [0] (selectedMappings tkOne molW molW
            (effectivePrematch tkOne molW molW []) (BTime.mk 5 1).sire true [] []
              false)).take (1 : Int).toNat))
        ∧ ((sortedMappings [0] (selectedMappings tkOne molW molW
            (effectivePrematch tkOne molW molW []) (BTime.mk 5 1).sire true [] []
              false)).take (1 : Int).toNat).length ≤ (1 : Int).toNat)
    ∧ (1 < (1 : Int) → false = true →
        matchAtoms tkOne molW molW "RMSD" 1 false [] ⟨5, 1⟩ true [] [] false =
          .ok (.manyWithScores
            ((sortedMappings [0] (selectedMappings tkOne molW molW
              (effectivePrematch tkOne molW molW []) (BTime.mk 5 1).sire true [] []
                false)).take (1 : Int).toNat)
            ((sortedScores [0]).take (1 : Int).toNat))
        ∧ ((sortedMappings [0] (selectedMappings tkOne molW molW
            (effectivePrematch tkOne molW molW []) (BTime.mk 5 1).sire true [] []
              false)).take (1 : Int).toNat).length ≤ (1 : Int).toNat
        ∧ ((sortedScores [0]).take (1 : Int).toNat).length ≤ (1 : Int).toNat) :=
  matchAtoms_return_formats tkOne molW molW "RMSD" 1 false [] ⟨5, 1⟩ true [] [] false
    [0] (by decide) rfl rfl (by decide)

/-- C10: `matchAtoms` accepts a match count of zero — only negative
counts raise `ValueError` (whose message nonetheless says "positive") —
and with zero requested matches and a non-empty scored candidate list it
returns an empty list (or a pair of two empty lists with
`return_scores`), not `None`; a `None` result happens only when the
search itself selected zero mappings. -/
theorem matches_zero_accepted :
    (∀ (tk : Toolkit) (mol0 mol1 : SireMolecule) (sf : String) (rs : Bool)
       (prematch : Mapping) (timeout : BTime) (ml : Bool) (pm0 pm1 : PropMap) (vb : Bool)
       (ms : List Mapping) (ss : List SLength),
       normName sf ∈ scoringFunctions →
       firstBadPair mol0 mol1 prematch = none →
       scoreRmsd tk mol0 mol1 (selectedMappings tk mol0 mol1
         (effectivePrematch tk mol0 mol1 prematch) timeout.sire ml pm0 pm1 vb)
         (normName sf == "RMSDALIGN") = .ok (ms, ss) →
       selectedMappings tk mol0 mol1 (effectivePrematch tk mol0 mol1 prematch)
         timeout.sire ml pm0 pm1 vb ≠ [] →
       matchAtoms tk mol0 mol1 sf 0 rs prematch timeout ml pm0 pm1 vb =
         (if rs then .ok (.manyWithScores [] []) else .ok (.many [])))
    ∧ (∀ (tk : Toolkit) (mol0 mol1 : SireMolecule) (sf : String) (n : Int) (rs : Bool)
       (prematch : Mapping) (timeout : BTime) (ml : Bool) (pm0 pm1 : PropMap) (vb : Bool),
       n < 0 → normName sf ∈ scoringFunctions →
       matchAtoms tk mol0 mol1 sf n rs prematch timeout ml pm0 pm1 vb =
         .error (.valueError "\x27matches\x27 must be positive!"))
    ∧ (∀ (tk : Toolkit) (mol0 mol1 : SireMolecule) (sf : String) (nmatches : Int)
       (rs : Bool) (prematch : Mapping) (timeout : BTime) (ml : Bool)
       (pm0 pm1 : PropMap) (vb : Bool),
       normName sf ∈ scoringFunctions → ¬ nmatches < 0 →
       firstBadPair mol0 mol1 prematch = none →
       matchAtoms tk mol0 mol1 sf nmatches rs prematch timeout ml pm0 pm1 vb =
         .ok .pyNone →
       selectedMappings tk mol0 mol1 (effectivePrematch tk mol0 mol1 prematch)
         timeout.sire ml pm0 pm1 vb = []) := by
  refine ⟨?_, ?_, ?_⟩
  · intro tk mol0 mol1 sf rs prematch timeout ml pm0 pm1 vb ms ss hsf hpm hok hne
    have hlen0 : ¬ (selectedMappings tk mol0 mol1 (effectivePrematch tk mol0 mol1 prematch)
        timeout.sire ml pm0 pm1 vb).length = 0 :=
      fun h => hne (List.length_eq_zero.mp h)
    rw [matchAtoms_valid_eq tk mol0 mol1 sf 0 rs prematch timeout ml pm0 pm1 vb
      hsf (by decide) hpm, matchAtomsPost, if_neg hlen0,
      if_neg (by decide : ¬ (0 : Int) = 1), hok]
    cases rs <;> simp
  · intro tk mol0 mol1 sf n rs prematch timeout ml pm0 pm1 vb hneg hsf
    rw [matchAtoms]
    simp only []
    rw [if_pos hsf, if_pos hneg]
  · intro tk mol0 mol1 sf nmatches rs prematch timeout ml pm0 pm1 vb hsf hm hpm h
    rw [matchAtoms_valid_eq tk mol0 mol1 sf nmatches rs prematch timeout ml pm0 pm1 vb
      hsf hm hpm] at h
    exact matchAtomsPost_pyNone tk mol0 mol1 (normName sf == "RMSDALIGN") nmatches rs _ h

/-- Closed instance of `matches_zero_accepted`: a negative count raises
the `ValueError`, and a zero count with a found mapping returns the empty
list. -/
theorem matches_zero_accepted_inst :
    matchAtoms tkOne molW molW "RMSD" (-1) false [] ⟨5, 1⟩ true [] [] false =
      .error (.valueError "\x27matches\x27 must be positive!")
    ∧ matchAtoms tkOne molW molW "RMSD" 0 false [] ⟨5, 1⟩ true [] [] false =
      (if false then .ok (.manyWithScores [] []) else .ok (.many [])) :=
  ⟨(matches_zero_accepted).2.1 tkOne molW molW "RMSD" (-1) false [] ⟨5, 1⟩ true [] []
      false (by decide) (by decide),
   (matches_zero_accepted).1 tkOne molW molW "RMSD" false [] ⟨5, 1⟩ true [] [] false
      (sortedMappings [0] [[(0, 0)]]) (sortedScores [0]) (by decide) rfl rfl (by decide)⟩

/-- C5: a failing rigid-body fit surfaces as the distinguished
`AlignmentError` carrying the offending mapping, whatever the low-level
cause was (the cause is quantified over and absent from the propagated
error, modelling `raise ... from None`): in `rmsdAlign` with a validated
user mapping, and in the align-then-score path of `_score_rmsd`, where a
fit failure on the first candidate aborts the whole scoring operation,
and any scoring error is an `AlignmentError` carrying one of the
candidate mappings. -/
theorem alignment_failure_distinguished :
    (∀ (tk : Toolkit) (mol0 mol1 : SireMolecule) (m : Mapping) (pm0 pm1 : PropMap)
       (c : String),
       firstBadPair mol0 mol1 m = none →
       tk.align mol0 mol1 (some m) = .error c →
       rmsdAlign tk mol0 mol1 (some m) pm0 pm1 =
         .error (.alignmentError (alignMsg (some m))))
    ∧ (∀ (tk : Toolkit) (mol0 mol1 : SireMolecule) (m : Mapping) (rest : List Mapping)
       (c : String),
       tk.align mol0 mol1 (some m) = .error c →
       scoreRmsd tk mol0 mol1 (m :: rest) true =
         .error (.alignmentError (scoreAlignMsg m)))
    ∧ (∀ (tk : Toolkit) (mol0 mol1 : SireMolecule) (ms : List Mapping) (e : PyError),
       scoreRmsd tk mol0 mol1 ms true = .error e →
       ∃ m ∈ ms, e = .alignmentError (scoreAlignMsg m)) := by
  refine ⟨?_, ?_, ?_⟩
  · intro tk mol0 mol1 m pm0 pm1 c hpm halign
    rw [rmsdAlign]
    simp only [hpm]
    rw [alignStep, halign]
  · intro tk mol0 mol1 m rest c halign
    simp [scoreRmsd, scoreLoop, halign]
  · intro tk mol0 mol1 ms e h
    exact scoreLoop_error_mem tk mol1 true mol0 ms e
      (scoreRmsd_error tk mol0 mol1 ms true e h)

/-- Closed instance of `alignment_failure_distinguished` at the toolkit
whose fit always fails. -/
theorem alignment_failure_distinguished_inst :
    rmsdAlign tkFail molW molW (some [(0, 0)]) [] [] =
      .error (.alignmentError (alignMsg (some [(0, 0)])))
    ∧ scoreRmsd tkFail molW molW [[(0, 0)]] true =
      .error (.alignmentError (scoreAlignMsg [(0, 0)])) :=
  ⟨(alignment_failure_distinguished).1 tkFail molW molW [(0, 0)] [] []
      "singular matrix" rfl rfl,
   (alignment_failure_distinguished).2.1 tkFail molW molW [(0, 0)] []
      "singular matrix" rfl⟩

/-- C6: the claim fails on the code.  The named AMBER dispatch functions
do return an auto-started background `Process` handle, but the
dynamically synthesized Open Force Field dispatch functions call the
`_parameterise_openff` stub, which prints the force-field name and
returns `None`: dispatching an Open Force Field name through
`parameterise` yields Python `None`, not a process handle. -/
theorem openff_dispatch_stub :
    parameterise envAmber 0 "openff-1.0.0" none [] = .ok .pyNone
    ∧ parameterise envAmber 0 "ff99" none [] =
        .ok (.proc ⟨0, .FF99 [], none, true⟩) :=
  ⟨rfl, rfl⟩

/-- C7: the net-charge handling of `gaff` and `gaff2` (AMBER present): a
typed `Charge` is replaced by its magnitude; a fractional float magnitude
raises `ValueError`; a value `int()` cannot convert raises `TypeError`;
and the integer-valued float `2.0` is coerced to the integer `2` in the
protocol record. -/
theorem gaff_net_charge_coercion (env : PEnv) (mol : PMolecule) (wd : Option String)
    (pm : PropMap) (q : ℚ) (ha : env.amber_home.isNone = false) :
    (gaff env mol wd (some (.pcharge q)) pm = gaff env mol wd (some (.pfloat q)) pm)
    ∧ (q.den ≠ 1 → gaff env mol wd (some (.pfloat q)) pm =
        .error (.valueError "\x27net_charge\x27 must be integer valued."))
    ∧ (gaff env mol wd (some .pother) pm = .error (.typeError
        "\x27net_charge\x27 must be of type \x27int\x27, or \x60BioSimSpace.Types.Charge\x27"))
    ∧ (gaff env mol wd (some (.pfloat 2)) pm =
        .ok (.proc ⟨mol, .GAFF (some 2) pm, wd, true⟩))
    ∧ (gaff2 env mol wd (some (.pcharge q)) pm = gaff2 env mol wd (some (.pfloat q)) pm)
    ∧ (q.den ≠ 1 → gaff2 env mol wd (some (.pfloat q)) pm =
        .error (.valueError "\x27net_charge\x27 must be integer valued."))
    ∧ (gaff2 env mol wd (some .pother) pm = .error (.typeError
        "\x27net_charge\x27 must be of type \x27int\x27, or \x60BioSimSpace.Types.Charge\x27"))
    ∧ (gaff2 env mol wd (some (.pfloat 2)) pm =
        .ok (.proc ⟨mol, .GAFF2 (some 2) pm, wd, true⟩)) := by
  have htwo : fractionalFloat (.pfloat 2) = false := by decide
  have htrunc : pyToInt (.pfloat 2) = some 2 := by decide
  refine ⟨?_, ?_, ?_, ?_, ?_, ?_, ?_, ?_⟩
  · rw [gaff, gaff, if_neg (by simp [ha]), if_neg (by simp [ha])]
    rfl
  · intro hq
    rw [gaff, if_neg (by simp [ha])]
    simp [coerceNetCharge, magnitudeStep, fractionalFloat, hq]
  · rw [gaff, if_neg (by simp [ha])]
    simp [coerceNetCharge, magnitudeStep, fractionalFloat, pyToInt]
  · rw [gaff, if_neg (by simp [ha])]
    simp [coerceNetCharge, magnitudeStep, htwo, htrunc]
  · rw [gaff2, gaff2, if_neg (by simp [ha]), if_neg (by simp [ha])]
    rfl
  · intro hq
    rw [gaff2, if_neg (by simp [ha])]
    simp [coerceNetCharge, magnitudeStep, fractionalFloat, hq]
  · rw [gaff2, if_neg (by simp [ha])]
    simp [coerceNetCharge, magnitudeStep, fractionalFloat, pyToInt]
  · rw [gaff2, if_neg (by simp [ha])]
    simp [coerceNetCharge, magnitudeStep, htwo, htrunc]

/-- Closed instance of `gaff_net_charge_coercion` at the fractional
charge 5/2 and the AMBER-present environment. -/
theorem gaff_net_charge_coercion_inst :
    (gaff envAmber 0 none (some (.pcharge (5 / 2))) [] =
      gaff envAmber 0 none (some (.pfloat (5 / 2))) [])
    ∧ ((5 / 2 : ℚ).den ≠ 1 → gaff envAmber 0 none (some (.pfloat (5 / 2))) [] =
        .error (.valueError "\x27net_charge\x27 must be integer valued."))
    ∧ (gaff envAmber 0 none (some .pother) [] = .error (.typeError
        "\x27net_charge\x27 must be of type \x27int\x27, or \x60BioSimSpace.Types.Charge\x27"))
    ∧ (gaff envAmber 0 none (some (.pfloat 2)) [] =
        .ok (.proc ⟨0, .GAFF (some 2) [], none, true⟩))
    ∧ (gaff2 envAmber 0 none (some (.pcharge (5 / 2))) [] =
        gaff2 envAmber 0 none (some (.pfloat (5 / 2))) [])
    ∧ ((5 / 2 : ℚ).den ≠ 1 → gaff2 envAmber 0 none (some (.pfloat (5 / 2))) [] =
        .error (.valueError "\x27net_charge\x27 must be integer valued."))
    ∧ (gaff2 envAmber 0 none (some .pother) [] = .error (.typeError
        "\x27net_charge\x27 must be of type \x27int\x27, or \x60BioSimSpace.Types.Charge\x27"))
    ∧ (gaff2 envAmber 0 none (some (.pfloat 2)) [] =
        .ok (.proc ⟨0, .GAFF2 (some 2) [], none, true⟩)) :=
  gaff_net_charge_coercion envAmber 0 none [] (5 / 2) rfl

/-- C8: `parameterise` dispatches the force-field name after stripping
spaces and lower-casing, so two names with the same normal form select
the same backend; any name whose normal form is not registered raises a
`ValueError` whose message lists all currently registered force-field
names. -/
theorem parameterise_dispatch_insensitive (env : PEnv) (mol : PMolecule)
    (wd : Option String) (pm : PropMap) (s1 s2 : String)
    (h12 : lowerStr (stripSpaces s1) = lowerStr (stripSpaces s2)) :
    parameterise env mol s1 wd pm = parameterise env mol s2 wd pm
    ∧ (∀ s : String, lowerStr (stripSpaces s) ∉ forcefieldsLower env →
        parameterise env mol s wd pm =
          .error (.valueError ("Supported force fields are: " ++
            listRepr (forceFields env)))) := by
  constructor
  · rw [parameterise, parameterise, h12]
  · intro s hs
    simp only [parameterise]
    rw [if_neg hs]

/-- Closed instance of `parameterise_dispatch_insensitive`: `"GAFF"` and
`"g AfF"` dispatch identically, and `"bogus"` raises the listing
`ValueError`. -/
theorem parameterise_dispatch_insensitive_inst :
    parameterise envAmber 0 "GAFF" none [] = parameterise envAmber 0 "g AfF" none []
    ∧ parameterise envAmber 0 "bogus" none [] =
        .error (.valueError ("Supported force fields are: " ++
          listRepr (forceFields envAmber))) :=
  ⟨(parameterise_dispatch_insensitive envAmber 0 none [] "GAFF" "g AfF" (by decide)).1,
   (parameterise_dispatch_insensitive envAmber 0 none [] "GAFF" "g AfF" (by decide)).2
     "bogus" (by decide)⟩

end BioSimSpace
